import Mathlib

/-!
Shallow embedding of the reliable-delivery engine in
`src/client/xbee_coap.py` (class `CoAP`), covering the retransmission
task `_retransmit`, the datagram sender `send_datagram`, the message
façade `send_message`, and the receiver loop `receive_datagram`.

Timing (the `wait(timeout=future_time)` calls) is abstracted away: the
values of the flags `message.acknowledged`, `message.rejected` and
`transaction.retransmit_stop.isSet()` that the loop reads are supplied
by an environment function `obs`, one observation index per read, since
those flags are written by other threads while the loop waits.
-/

namespace XBeeCoAP

/-- Values of the three flags that `_retransmit` reads at one observation
point: `message.acknowledged`, `message.rejected`, and
`transaction.retransmit_stop.isSet()`. -/
structure ObsFlags where
  acknowledged : Bool
  rejected : Bool
  stopSet : Bool
deriving Repr, DecidableEq

/-- Outcome of the `while` loop inside `CoAP._retransmit`: either the loop
condition (or the inner re-check) eventually fails and the loop exits
normally at some observation index with a number of `send_datagram` calls
performed, or a `send_datagram` call inside the loop raised and the
exception propagated out of the loop. -/
inductive LoopOutcome where
  | exited (exitIdx : Nat) (sends : Nat)
  | raised (sends : Nat)
deriving Repr, DecidableEq

/-- Environment in which all flag reads return false: the message is never
acknowledged, never rejected, and the stop event is never set. -/
def quietObs : Nat → ObsFlags := fun _ => ⟨false, false, false⟩

/-- Environment in which no `send_datagram` call raises. -/
def noSendFailure : Nat → Bool := fun _ => false

/-- The `while` loop of `CoAP._retransmit` (xbee_coap.py lines 170-179):

    while retransmit_count <= defines.MAX_RETRANSMIT
          and (not message.acknowledged and not message.rejected)
          and not transaction.retransmit_stop.isSet():
        transaction.retransmit_stop.wait(timeout=future_time)
        if not message.acknowledged and not message.rejected
           and not transaction.retransmit_stop.isSet():
            retransmit_count += 1
            future_time *= 2
            if retransmit_count < defines.MAX_RETRANSMIT:
                self.send_datagram(message)

`obs i` gives the flag values at the i-th read (guard reads use even
indices, the post-wait re-check the following odd index);
`sendRaises k` tells whether the k-th `send_datagram` call raises an
exception that propagates; `ft` is `future_time` (doubled each round,
it only feeds the wait and never the control flow); `rc` is
`retransmit_count`; `sends` counts `send_datagram` calls made so far.
`fuel` bounds the number of iterations modelled; `none` means the fuel
ran out before the loop exited. -/
def retransmitLoop (MAX_RETRANSMIT : Nat) (obs : Nat → ObsFlags) (sendRaises : Nat → Bool) :
    Nat → Nat → Nat → Nat → Nat → Option LoopOutcome
  | 0, _, _, _, _ => none
  | fuel + 1, rc, ft, i, sends =>
    let g := obs i
    if rc ≤ MAX_RETRANSMIT ∧ g.acknowledged = false ∧ g.rejected = false ∧ g.stopSet = false then
      let h := obs (i + 1)
      if h.acknowledged = false ∧ h.rejected = false ∧ h.stopSet = false then
        if rc + 1 < MAX_RETRANSMIT then
          if sendRaises sends then some (.raised sends)
          else retransmitLoop MAX_RETRANSMIT obs sendRaises fuel (rc + 1) (ft * 2) (i + 2) (sends + 1)
        else retransmitLoop MAX_RETRANSMIT obs sendRaises fuel (rc + 1) (ft * 2) (i + 2) sends
      else retransmitLoop MAX_RETRANSMIT obs sendRaises fuel rc ft (i + 2) sends
    else some (.exited i sends)

/-- Observable effects of one run of `CoAP._retransmit`.
The fields record, in order: how many `send_datagram` calls the loop
made; the value written to `message.timeouted` (`none` when the
assignment was never reached); how many times `self._callback(None)` was
invoked; whether `logger.warning` ran; whether
`self.to_be_stopped.remove(transaction.retransmit_stop)` was executed;
whether `transaction.retransmit_stop = None` was executed; whether
`transaction.retransmit_thread = None` was executed; whether an
exception propagated out of the function; and the values of
`message.acknowledged` / `message.rejected` read by the post-loop
`if message.acknowledged or message.rejected` test (`none` when that
test was never reached). -/
structure RetransResult where
  sends : Nat
  timeouted : Option Bool
  callbackNone : Nat
  warned : Bool
  stopRemoved : Bool
  stopCleared : Bool
  threadCleared : Bool
  raised : Bool
  exitAcknowledged : Option Bool
  exitRejected : Option Bool
deriving Repr, DecidableEq

/-- The body of `CoAP._retransmit` (xbee_coap.py lines 160-197): run the
retry loop, then either propagate the exception (skipping everything
after the loop, since none of the remaining statements sit in a
`finally` block), or run the exit statements: set `message.timeouted`,
possibly warn and invoke `self._callback(None)`, then remove the stop
event from `self.to_be_stopped` and clear
`transaction.retransmit_stop` / `transaction.retransmit_thread`. -/
def retransmit (MAX_RETRANSMIT : Nat) (obs : Nat → ObsFlags) (sendRaises : Nat → Bool)
    (ft0 : Nat) (fuel : Nat) : Option RetransResult :=
  match retransmitLoop MAX_RETRANSMIT obs sendRaises fuel 0 ft0 0 0 with
  | none => none
  | some (.raised s) =>
    some ⟨s, none, 0, false, false, false, false, true, none, none⟩
  | some (.exited i s) =>
    let f := obs (i + 1)
    if f.acknowledged || f.rejected then
      some ⟨s, some false, 0, false, true, true, true, false, some f.acknowledged, some f.rejected⟩
    else
      some ⟨s, some true, 1, true, true, true, true, false, some f.acknowledged, some f.rejected⟩

/-- Option number of the NO_RESPONSE option
(`defines.OptionRegistry.NO_RESPONSE.number` in the coapthon registry,
RFC 7967). Only its equality with option numbers on the message matters
here. -/
def NO_RESPONSE_NUMBER : Nat := 258

/-- One CoAP option of the outbound message: its registry number and its
value (the values compared in the source are small integers). -/
structure CoapOption where
  number : Nat
  value : Nat
deriving Repr, DecidableEq

/-- Observable effects of one call of `CoAP.send_datagram`.
`raisedOut` is the exception propagated to the caller (`none` when the
call returned normally); `transportSendCalled` records that
`self.xbee.send_data` was invoked; `startedReceiver` records that a new
receiver thread was created and started; `receiverAfter` is the state of
`self._receiver_thread` after the call (`none` = no thread object,
`some b` = a thread object with aliveness `b`). -/
structure SendOutcome where
  raisedOut : Option Nat
  transportSendCalled : Bool
  startedReceiver : Bool
  receiverAfter : Option Bool
deriving Repr, DecidableEq

/-- The scan in `CoAP.send_datagram` (xbee_coap.py lines 132-135): for
each option of the message, if its number equals
`defines.OptionRegistry.NO_RESPONSE.number` and its value equals 26,
return early. -/
def hasNoResponseSuppressAll (opts : List CoapOption) : Bool :=
  opts.any (fun o => o.number == NO_RESPONSE_NUMBER && o.value == 26)

/-- The body of `CoAP.send_datagram` (xbee_coap.py lines 112-140).
`writePolicy` models `self._cb_ignore_write_exception` (`none` covers
both an absent callback and a non-callable one, since the source guards
with `is not None and isinstance(..., collections.Callable)`);
`sendRaisesWith` is `some e` when `self.xbee.send_data` raises the
exception coded `e`; `opts` are the options of the message being sent;
`receiver` is the state of `self._receiver_thread` before the call.

Control flow of the source: the `try` block calls `send_data`; on an
exception, when the policy condition holds and the policy returns False
the exception is re-raised (aborting the function), and in every other
case — policy returns True, or no callable policy is installed — the
`except` block falls through and execution continues.  Then the
NO_RESPONSE scan may return early, and otherwise a receiver thread is
started when `self._receiver_thread` is `None` or not alive. -/
def send_datagram (writePolicy : Option (Nat → Bool)) (sendRaisesWith : Option Nat)
    (opts : List CoapOption) (receiver : Option Bool) : SendOutcome :=
  let propagated : Option Nat :=
    match sendRaisesWith, writePolicy with
    | none, _ => none
    | some _, none => none
    | some e, some p => if p e then none else some e
  match propagated with
  | some e => ⟨some e, true, false, receiver⟩
  | none =>
    if hasNoResponseSuppressAll opts then
      ⟨none, true, false, receiver⟩
    else
      match receiver with
      | some true => ⟨none, true, false, some true⟩
      | _ => ⟨none, true, true, some true⟩

/-- The CoAP message types of `defines.Types`. -/
inductive MsgType where
  | CON
  | NON
  | ACK
  | RST
deriving Repr, DecidableEq

/-- The outbound message handed to `CoAP.send_message`: whether it is an
instance of `Request` (a `Request` is also a `Message`), its type, and
its MID. -/
structure OutMessage where
  isRequest : Bool
  type : MsgType
  mid : Nat
deriving Repr, DecidableEq

/-- A transaction as returned by `self._messageLayer.send_request`; only
its `request` field is read by `send_message`. -/
structure OutTransaction where
  request : OutMessage
deriving Repr, DecidableEq

/-- The external coapthon layer stack used by `CoAP.send_message`; each
field models one of the layer calls as an opaque transformation. -/
structure Layers where
  requestLayer_send : OutMessage → OutMessage
  observeLayer_send : OutMessage → OutMessage
  blockLayer_send : OutMessage → OutMessage
  messageLayer_send : OutMessage → OutTransaction
  observeLayer_sendEmpty : OutMessage → OutMessage
  messageLayer_sendEmpty : OutMessage → OutMessage

/-- The condition of `CoAP._start_retransmission` (xbee_coap.py lines
150-158): under the transaction lock, a retransmission thread is created
and started exactly when `message.type == defines.Types[CON]`. -/
def start_retransmission_arms (message : OutMessage) : Bool :=
  message.type = .CON

/-- The request after the layer pipeline of the `Request` branch of
`send_message`: `requestLayer.send_request`, then
`observeLayer.send_request`, then `blockLayer.send_request`, then
`messageLayer.send_request` which yields the transaction. -/
def resolvedTransaction (L : Layers) (m : OutMessage) : OutTransaction :=
  L.messageLayer_send (L.blockLayer_send (L.observeLayer_send (L.requestLayer_send m)))

/-- Observable effects of one call of `CoAP.send_message`: the datagrams
handed to `send_datagram`, and whether a retransmission task was armed
(a retransmission thread created and started). -/
structure SendMessageResult where
  sent : List OutMessage
  armed : Bool
deriving Repr, DecidableEq

/-- The body of `CoAP.send_message` (xbee_coap.py lines 93-110): a
`Request` goes through the four send layers, the resulting
`transaction.request` is sent, and when its type is CON the
retransmission task is started via `_start_retransmission`; a bare
`Message` goes through `observeLayer.send_empty` and
`messageLayer.send_empty` and is sent with no retransmission.
`sendRaises` tells whether the `send_datagram` call raises an exception
that propagates; in that case `send_message` aborts (result `none`)
before any retransmission is armed. -/
def send_message (L : Layers) (sendRaises : Bool) (m : OutMessage) : Option SendMessageResult :=
  if m.isRequest then
    let transaction := resolvedTransaction L m
    if sendRaises then none
    else if transaction.request.type = .CON then
      some ⟨[transaction.request], start_retransmission_arms transaction.request⟩
    else
      some ⟨[transaction.request], false⟩
  else
    let m1 := L.messageLayer_sendEmpty (L.observeLayer_sendEmpty m)
    if sendRaises then none else some ⟨[m1], false⟩

/-- Result of one `self.xbee.read_data(timeout=0.1)` call in the receiver
loop: a `TimeoutException`, a successfully received xbee message (coded
by a Nat), or some other exception (coded by a Nat). -/
inductive ReadResult where
  | timeoutExc
  | dataMsg (m : Nat)
  | readExc (e : Nat)
deriving Repr, DecidableEq

/-- One iteration of the receiver loop as seen from the thread:
the value of `self.stopped.isSet()` read by the `while` guard, and the
result of the `read_data` call of that iteration (unused when the guard
already sees the stop flag set). -/
structure RecvIter where
  stopFlag : Bool
  read : ReadResult
deriving Repr, DecidableEq

/-- How `CoAP.receive_datagram` terminates: by reaching the final
`raise NotImplementedError` statement after the loop, or by the `return`
statement inside the generic `except` handler. -/
inductive RecvExit where
  | raisesNotImplemented
  | returnsNormally
deriving Repr, DecidableEq

/-- Observable effects of one run of `CoAP.receive_datagram`.
`printed` lists the messages passed to the `print` call (the only thing
the source does with a successfully received datagram); `callbackCalls`
counts invocations of `self._callback` (the source contains no such call
on any path of this function, which its own docstring claims to
perform); `stopSetByLoop` records whether the function executed
`self.stopped.set()` (the source contains no such call either). -/
structure RecvResult where
  exit : RecvExit
  printed : List Nat
  callbackCalls : Nat
  stopSetByLoop : Bool
deriving Repr, DecidableEq

/-- The body of `CoAP.receive_datagram` (xbee_coap.py lines 199-219):

    while not self.stopped.isSet():
        try:
            xbee_message = self.xbee.read_data(timeout=0.1)
        except TimeoutException:
            continue
        except Exception as e:
            if self._cb_ignore_read_exception is not None and
               isinstance(self._cb_ignore_read_exception, collections.Callable):
                if self._cb_ignore_read_exception(e, self):
                    continue
            return
        print(xbee_message)
    raise NotImplementedError

`pol` models `self._cb_ignore_read_exception` (`none` covers absent and
non-callable); the trace supplies one `RecvIter` per loop iteration in
order; `none` means the trace ended before the function terminated (the
real loop would keep polling). -/
def receive_datagram (pol : Option (Nat → Bool)) : List RecvIter → Option RecvResult
  | [] => none
  | it :: rest =>
    if it.stopFlag then some ⟨.raisesNotImplemented, [], 0, false⟩
    else
      match it.read with
      | .timeoutExc => receive_datagram pol rest
      | .readExc e =>
        match pol with
        | some p =>
          if p e then receive_datagram pol rest
          else some ⟨.returnsNormally, [], 0, false⟩
        | none => some ⟨.returnsNormally, [], 0, false⟩
      | .dataMsg m =>
        (receive_datagram pol rest).map (fun r => { r with printed := m :: r.printed })

/-- The loop of `receive_datagram` exits because the `while` guard sees
the stop flag set (rather than through the `return` in the exception
handler): same recursion structure as the loop, true exactly when the
first decisive event of the trace is a set stop flag. -/
def exitViaStop (pol : Option (Nat → Bool)) : List RecvIter → Bool
  | [] => false
  | it :: rest =>
    if it.stopFlag then true
    else
      match it.read with
      | .timeoutExc => exitViaStop pol rest
      | .readExc e =>
        match pol with
        | some p => if p e then exitViaStop pol rest else false
        | none => false
      | .dataMsg _ => exitViaStop pol rest

/-- The loop of `receive_datagram` exits through the `return` statement
of the generic exception handler: true exactly when the first decisive
event of the trace is a read exception that the policy does not
swallow. -/
def exitViaUnswallowedRead (pol : Option (Nat → Bool)) : List RecvIter → Bool
  | [] => false
  | it :: rest =>
    if it.stopFlag then false
    else
      match it.read with
      | .timeoutExc => exitViaUnswallowedRead pol rest
      | .readExc e =>
        match pol with
        | some p => if p e then exitViaUnswallowedRead pol rest else true
        | none => true
      | .dataMsg _ => exitViaUnswallowedRead pol rest

/-- Local state of one thread executing the receiver-thread guard of
`send_datagram` (xbee_coap.py lines 137-140): whether it has evaluated
the guard `self._receiver_thread is None or not
self._receiver_thread.isAlive()`, the value it observed, and whether it
has performed the subsequent `threading.Thread(...)` creation and
`start()`. -/
structure RecvCaller where
  checked : Bool
  guardPassed : Bool
  started : Bool
deriving Repr, DecidableEq

/-- Engine state for the receiver-thread guard: `handle` is
`self._receiver_thread` (`some t` = a thread object with id `t`),
`liveThreads` the ids of receiver threads currently alive, `nextId` a
fresh thread id, and `c1`, `c2` two concurrent callers of
`send_datagram` on the same engine. -/
structure RecvEngine where
  handle : Option Nat
  liveThreads : List Nat
  nextId : Nat
  c1 : RecvCaller
  c2 : RecvCaller
deriving Repr, DecidableEq

/-- The guard `self._receiver_thread is None or not
self._receiver_thread.isAlive()` evaluated against the engine state. -/
def guardHolds (s : RecvEngine) : Bool :=
  match s.handle with
  | none => true
  | some t => !(s.liveThreads.contains t)

/-- Effect of `self._receiver_thread = threading.Thread(...)` followed by
`self._receiver_thread.start()`: a fresh thread becomes live and the
handle now names it. -/
def doStart (s : RecvEngine) : RecvEngine :=
  { s with handle := some s.nextId,
           liveThreads := s.nextId :: s.liveThreads,
           nextId := s.nextId + 1 }

/-- Interleavable atomic actions: each caller evaluates the guard in one
step (check) and, in a separate later step, creates and starts the
thread when its recorded guard value passed (start); a live receiver
thread may terminate (die), e.g. by returning on an unswallowed read
exception. This splits the guard from the start exactly where the
source allows the scheduler to preempt between line 137 and line 140. -/
inductive RecvAct where
  | check1
  | start1
  | check2
  | start2
  | die (t : Nat)
deriving Repr, DecidableEq

/-- One interleaved step of the two-caller receiver-guard machine. -/
def recvStep (s : RecvEngine) : RecvAct → RecvEngine
  | .check1 => { s with c1 := ⟨true, guardHolds s, s.c1.started⟩ }
  | .start1 =>
    if s.c1.checked && s.c1.guardPassed && !s.c1.started then
      { doStart s with c1 := ⟨s.c1.checked, s.c1.guardPassed, true⟩ }
    else s
  | .check2 => { s with c2 := ⟨true, guardHolds s, s.c2.started⟩ }
  | .start2 =>
    if s.c2.checked && s.c2.guardPassed && !s.c2.started then
      { doStart s with c2 := ⟨s.c2.checked, s.c2.guardPassed, true⟩ }
    else s
  | .die t => { s with liveThreads := s.liveThreads.erase t }

/-- Run a schedule of interleaved actions from a state. -/
def recvRun (s : RecvEngine) (acts : List RecvAct) : RecvEngine :=
  acts.foldl recvStep s

/-- A freshly constructed engine: no receiver thread yet, neither caller
has run. -/
def initRecvEngine : RecvEngine :=
  ⟨none, [], 0, ⟨false, false, false⟩, ⟨false, false, false⟩⟩

/-- Serialized (non-interleaved) actions on the engine: a whole
`send_datagram` guard-and-start executed without preemption, or the
termination of a live receiver thread. -/
inductive AtomicAct where
  | send
  | die (t : Nat)
deriving Repr, DecidableEq

/-- One serialized step: the guard and the thread start of
`send_datagram` run back to back with nothing in between. -/
def atomicStep (s : RecvEngine) : AtomicAct → RecvEngine
  | .send => if guardHolds s then doStart s else s
  | .die t => { s with liveThreads := s.liveThreads.erase t }

/-- Invariant of serialized execution: at most one live receiver thread,
and every live receiver thread is the one the handle names. -/
def RecvEngineInv (s : RecvEngine) : Prop :=
  s.liveThreads.length ≤ 1 ∧ ∀ t ∈ s.liveThreads, s.handle = some t

/-! Helper lemmas. -/

/-- In the quiet environment (no acknowledgement, no rejection, no stop,
no send failure) the retry loop exits after walking `retransmit_count`
from `rc` up to `MAX_RETRANSMIT + 1`, having called `send_datagram` once
for every increment that lands strictly below `MAX_RETRANSMIT`. -/
theorem retransmitLoop_quiet (M : Nat) :
    ∀ fuel rc ft i sends, 1 ≤ fuel → M + 2 ≤ fuel + rc →
      retransmitLoop M quietObs noSendFailure fuel rc ft i sends =
        some (LoopOutcome.exited (i + 2 * (M + 1 - rc)) (sends + (M - 1 - rc))) := by
  intro fuel
  induction fuel with
  | zero => intro rc ft i sends h1 _; exact absurd h1 (by omega)
  | succ n ih =>
    intro rc ft i sends _ h2
    by_cases hrc : rc ≤ M
    · have hn : 1 ≤ n := by omega
      rw [retransmitLoop]
      simp only [quietObs, noSendFailure, and_true, true_and]
      rw [if_pos hrc, if_pos trivial]
      by_cases hsend : rc + 1 < M
      · rw [if_pos hsend, if_neg (by simp)]
        rw [ih (rc + 1) (ft * 2) (i + 2) (sends + 1) hn (by omega)]
        have e1 : i + 2 + 2 * (M + 1 - (rc + 1)) = i + 2 * (M + 1 - rc) := by omega
        have e2 : sends + 1 + (M - 1 - (rc + 1)) = sends + (M - 1 - rc) := by omega
        rw [e1, e2]
      · rw [if_neg hsend]
        rw [ih (rc + 1) (ft * 2) (i + 2) sends hn (by omega)]
        have e1 : i + 2 + 2 * (M + 1 - (rc + 1)) = i + 2 * (M + 1 - rc) := by omega
        have e2 : sends + (M - 1 - (rc + 1)) = sends + (M - 1 - rc) := by omega
        rw [e1, e2]
    · rw [retransmitLoop]
      simp only [quietObs, noSendFailure, and_true, true_and]
      rw [if_neg hrc]
      have e1 : i + 2 * (M + 1 - rc) = i := by omega
      have e2 : sends + (M - 1 - rc) = sends := by omega
      rw [e1, e2]

/-! Claim C2. -/

/-- C2 (counterexample): with the standard `MAX_RETRANSMIT = 4`, a
confirmable message that is never acknowledged, never rejected and whose
stop signal is never set is retransmitted exactly 3 times, not
`MAX_RETRANSMIT = 4` times as the claim states: the loop increments
`retransmit_count` before testing `retransmit_count < MAX_RETRANSMIT`,
so only the increments landing on 1, 2 and 3 resend. -/
theorem retransmit_quiet_sends_cex :
    (retransmit 4 quietObs noSendFailure 2 10).map (fun r => r.sends) = some 3 ∧
      (3 : Nat) ≠ 4 := by
  exact ⟨rfl, by decide⟩

/-- C2 (amended): for every `MAX_RETRANSMIT` value `M`, a confirmable
message that is never acknowledged, never rejected and whose stop signal
is never set is retransmitted exactly `M - 1` times by `_retransmit`
started with `retransmit_count = 0` (given enough loop iterations
modelled). -/
theorem retransmit_quiet_sends (M ft fuel : Nat) (hfuel : M + 2 ≤ fuel) :
    (retransmit M quietObs noSendFailure ft fuel).map (fun r => r.sends) =
      some (M - 1) := by
  unfold retransmit
  rw [retransmitLoop_quiet M fuel 0 ft 0 0 (by omega) (by omega)]
  simp [quietObs]

/-- C2 (witness): instantiating the amended claim at `MAX_RETRANSMIT = 4`
with fuel 10 yields exactly 3 retransmissions. -/
theorem retransmit_quiet_sends_witness :
    (retransmit 4 quietObs noSendFailure 2 10).map (fun r => r.sends) = some 3 :=
  retransmit_quiet_sends 4 2 10 (by omega)

/-! Claim C3. -/

/-- C3: when the retransmission loop of `_retransmit` exits normally (no
exception propagated), then: if the post-loop read sees the message
acknowledged or rejected, `message.timeouted` is set to false and the
callback is not invoked with None; otherwise `message.timeouted` is set
to true, a warning is logged, and the callback is invoked exactly once
with None. -/
theorem retransmit_exit_marks (M : Nat) (obs : Nat → ObsFlags) (sendRaises : Nat → Bool)
    (ft fuel : Nat) (r : RetransResult)
    (hrun : retransmit M obs sendRaises ft fuel = some r) (hnr : r.raised = false) :
    ((r.exitAcknowledged = some true ∨ r.exitRejected = some true) →
      r.timeouted = some false ∧ r.callbackNone = 0) ∧
    ((r.exitAcknowledged = some false ∧ r.exitRejected = some false) →
      r.timeouted = some true ∧ r.warned = true ∧ r.callbackNone = 1) := by
  unfold retransmit at hrun
  match hloop : retransmitLoop M obs sendRaises fuel 0 ft 0 0 with
  | none =>
    rw [hloop] at hrun
    exact absurd hrun (by simp)
  | some (.raised s) =>
    rw [hloop] at hrun
    obtain rfl : (⟨s, none, 0, false, false, false, false, true, none, none⟩ :
        RetransResult) = r := by injection hrun
    exact absurd hnr (by simp)
  | some (.exited i s) =>
    rw [hloop] at hrun
    replace hrun : (if ((obs (i + 1)).acknowledged || (obs (i + 1)).rejected) = true then
        some (⟨s, some false, 0, false, true, true, true, false,
          some (obs (i + 1)).acknowledged, some (obs (i + 1)).rejected⟩ : RetransResult)
      else
        some ⟨s, some true, 1, true, true, true, true, false,
          some (obs (i + 1)).acknowledged, some (obs (i + 1)).rejected⟩) = some r := hrun
    by_cases hf : ((obs (i + 1)).acknowledged || (obs (i + 1)).rejected) = true
    · rw [if_pos hf] at hrun
      obtain rfl : (⟨s, some false, 0, false, true, true, true, false,
          some (obs (i + 1)).acknowledged, some (obs (i + 1)).rejected⟩ :
          RetransResult) = r := by injection hrun
      refine ⟨fun _ => ⟨rfl, rfl⟩, fun hboth => ?_⟩
      obtain ⟨ha, hb⟩ := hboth
      have ha1 : (obs (i + 1)).acknowledged = false := by injection ha
      have hb1 : (obs (i + 1)).rejected = false := by injection hb
      rw [ha1, hb1] at hf
      exact absurd hf (by simp)
    · rw [if_neg hf] at hrun
      obtain rfl : (⟨s, some true, 1, true, true, true, true, false,
          some (obs (i + 1)).acknowledged, some (obs (i + 1)).rejected⟩ :
          RetransResult) = r := by injection hrun
      refine ⟨fun hone => ?_, fun _ => ⟨rfl, rfl, rfl⟩⟩
      rcases hone with ha | hb
      · have ha1 : (obs (i + 1)).acknowledged = true := by injection ha
        rw [ha1] at hf
        exact absurd (by simp : ((true : Bool) || (obs (i + 1)).rejected) = true) hf
      · have hb1 : (obs (i + 1)).rejected = true := by injection hb
        rw [hb1] at hf
        exact absurd (by simp : ((obs (i + 1)).acknowledged || true) = true) hf

/-- C3 (witness): a quiet run with `MAX_RETRANSMIT = 0` completes without
raising, reads acknowledged/rejected false at exit, and the theorem
yields `timeouted = some true`, a warning, and one callback(None). -/
theorem retransmit_exit_marks_witness :
    (⟨0, some true, 1, true, true, true, true, false, some false, some false⟩ :
      RetransResult).timeouted = some true ∧
    (⟨0, some true, 1, true, true, true, true, false, some false, some false⟩ :
      RetransResult).warned = true ∧
    (⟨0, some true, 1, true, true, true, true, false, some false, some false⟩ :
      RetransResult).callbackNone = 1 :=
  (retransmit_exit_marks 0 quietObs noSendFailure 1 3 _ rfl rfl).2 ⟨rfl, rfl⟩

/-! Claim C5. -/

/-- C5 (counterexample): a run of `_retransmit` whose first
`send_datagram` call raises terminates with the exception propagating,
and none of the cleanup statements run: the stop event is not removed
from `to_be_stopped` and `retransmit_stop` / `retransmit_thread` are not
cleared, since the cleanup does not sit in a `finally` block. -/
theorem retransmit_raise_skips_cleanup_cex :
    (retransmit 4 quietObs (fun _ => true) 1 10).map
      (fun r => (r.raised, r.stopRemoved, r.stopCleared, r.threadCleared)) =
      some (true, false, false, false) := rfl

/-- C5 (amended): on every termination of `_retransmit` in which the
loop body did not raise — whether the loop exited via
acknowledgement/rejection or via timeout — the stop signal is removed
from `to_be_stopped` and the `retransmit_stop` and `retransmit_thread`
handles are cleared; when the loop body raises, the cleanup is
skipped. -/
theorem retransmit_cleanup_on_normal_exit (M : Nat) (obs : Nat → ObsFlags)
    (sendRaises : Nat → Bool) (ft fuel : Nat) (r : RetransResult)
    (hrun : retransmit M obs sendRaises ft fuel = some r) (hnr : r.raised = false) :
    r.stopRemoved = true ∧ r.stopCleared = true ∧ r.threadCleared = true := by
  unfold retransmit at hrun
  match hloop : retransmitLoop M obs sendRaises fuel 0 ft 0 0 with
  | none =>
    rw [hloop] at hrun
    exact absurd hrun (by simp)
  | some (.raised s) =>
    rw [hloop] at hrun
    obtain rfl : (⟨s, none, 0, false, false, false, false, true, none, none⟩ :
        RetransResult) = r := by injection hrun
    exact absurd hnr (by simp)
  | some (.exited i s) =>
    rw [hloop] at hrun
    replace hrun : (if ((obs (i + 1)).acknowledged || (obs (i + 1)).rejected) = true then
        some (⟨s, some false, 0, false, true, true, true, false,
          some (obs (i + 1)).acknowledged, some (obs (i + 1)).rejected⟩ : RetransResult)
      else
        some ⟨s, some true, 1, true, true, true, true, false,
          some (obs (i + 1)).acknowledged, some (obs (i + 1)).rejected⟩) = some r := hrun
    by_cases hf : ((obs (i + 1)).acknowledged || (obs (i + 1)).rejected) = true
    · rw [if_pos hf] at hrun
      obtain rfl : (⟨s, some false, 0, false, true, true, true, false,
          some (obs (i + 1)).acknowledged, some (obs (i + 1)).rejected⟩ :
          RetransResult) = r := by injection hrun
      exact ⟨rfl, rfl, rfl⟩
    · rw [if_neg hf] at hrun
      obtain rfl : (⟨s, some true, 1, true, true, true, true, false,
          some (obs (i + 1)).acknowledged, some (obs (i + 1)).rejected⟩ :
          RetransResult) = r := by injection hrun
      exact ⟨rfl, rfl, rfl⟩

/-- C5 (witness): a quiet run with `MAX_RETRANSMIT = 4` terminates
without raising and the amended theorem yields all three cleanup
effects. -/
theorem retransmit_cleanup_on_normal_exit_witness :
    (⟨3, some true, 1, true, true, true, true, false, some false, some false⟩ :
      RetransResult).stopRemoved = true ∧
    (⟨3, some true, 1, true, true, true, true, false, some false, some false⟩ :
      RetransResult).stopCleared = true ∧
    (⟨3, some true, 1, true, true, true, true, false, some false, some false⟩ :
      RetransResult).threadCleared = true :=
  retransmit_cleanup_on_normal_exit 4 quietObs noSendFailure 2 10 _ rfl rfl

/-! Claim C4. -/

/-- C4 (counterexample): with no write-exception policy injected, an
exception raised by `Transport.send` does not propagate to the caller of
`send_datagram`: the `except` block falls through, the exception is
swallowed, and the function keeps running (here it goes on to start the
receiver thread). -/
theorem send_datagram_no_policy_swallows_cex :
    (send_datagram none (some 5) [] none).raisedOut = none ∧
    (send_datagram none (some 5) [] none).startedReceiver = true := ⟨rfl, rfl⟩

/-- C4 (amended): when `Transport.send` raises during `send_datagram`
and no write-exception policy is injected, the exception is swallowed
(the call returns normally); when a policy is injected, the exception is
swallowed if the policy returns true and propagated to the caller if it
returns false (in which case the function aborts, leaving the receiver
thread untouched). -/
theorem send_datagram_write_exception_policy (p : Nat → Bool) (e : Nat)
    (opts : List CoapOption) (receiver : Option Bool) :
    (send_datagram none (some e) opts receiver).raisedOut = none ∧
    (p e = true → (send_datagram (some p) (some e) opts receiver).raisedOut = none) ∧
    (p e = false →
      (send_datagram (some p) (some e) opts receiver).raisedOut = some e ∧
      (send_datagram (some p) (some e) opts receiver).startedReceiver = false ∧
      (send_datagram (some p) (some e) opts receiver).receiverAfter = receiver) := by
  refine ⟨?_, ?_, ?_⟩
  · rcases receiver with _ | b
    · by_cases hopt : hasNoResponseSuppressAll opts = true <;>
        simp [send_datagram, hopt]
    · cases b <;>
        (by_cases hopt : hasNoResponseSuppressAll opts = true <;>
          simp [send_datagram, hopt])
  · intro hp
    rcases receiver with _ | b
    · by_cases hopt : hasNoResponseSuppressAll opts = true <;>
        simp [send_datagram, hopt, hp]
    · cases b <;>
        (by_cases hopt : hasNoResponseSuppressAll opts = true <;>
          simp [send_datagram, hopt, hp])
  · intro hp
    simp [send_datagram, hp]

/-- C4 (witness): a policy that returns false on exception 7 makes
`send_datagram` propagate exception 7. -/
theorem send_datagram_write_exception_policy_witness :
    (send_datagram (some (fun _ => false)) (some 7) [] none).raisedOut = some 7 :=
  ((send_datagram_write_exception_policy (fun _ => false) 7 [] none).2.2 rfl).1

/-! Claim C7. -/

/-- C7: when the options of the message include a NO_RESPONSE option
with value 26 (suppress all responses), `send_datagram` performs the
transport send and returns without starting a receiver thread, and the
previously recorded receiver thread state is left unchanged (so an
already-running receiver keeps running). -/
theorem send_datagram_suppress_response (writePolicy : Option (Nat → Bool))
    (sendRaisesWith : Option Nat) (opts : List CoapOption) (receiver : Option Bool)
    (h : hasNoResponseSuppressAll opts = true) :
    (send_datagram writePolicy sendRaisesWith opts receiver).transportSendCalled = true ∧
    (send_datagram writePolicy sendRaisesWith opts receiver).startedReceiver = false ∧
    (send_datagram writePolicy sendRaisesWith opts receiver).receiverAfter = receiver := by
  match sendRaisesWith, writePolicy with
  | none, none => simp [send_datagram, h]
  | none, some p => simp [send_datagram, h]
  | some e, none => simp [send_datagram, h]
  | some e, some p =>
    by_cases hp : p e = true
    · simp [send_datagram, h, hp]
    · simp [send_datagram, hp]

/-- C7 (witness): a message with options `[(NO_RESPONSE, 26)]` sent
while a receiver thread is already alive leaves the thread running and
starts no new one. -/
theorem send_datagram_suppress_response_witness :
    (send_datagram none none [⟨258, 26⟩] (some true)).startedReceiver = false ∧
    (send_datagram none none [⟨258, 26⟩] (some true)).receiverAfter = some true :=
  ⟨(send_datagram_suppress_response none none [⟨258, 26⟩] (some true) rfl).2.1,
   (send_datagram_suppress_response none none [⟨258, 26⟩] (some true) rfl).2.2⟩

/-! Claim C8. -/

/-- C8: for every run of `send_message` in which the `send_datagram`
call does not raise, a retransmission task is armed if and only if the
outbound message is a `Request` whose type after the
request/observe/block/message layers is CON; a `Request` of any other
type and a bare `Message` are sent (exactly one datagram) without any
retransmission task being armed. -/
theorem send_message_arms_iff (L : Layers) (m : OutMessage) (r : SendMessageResult)
    (h : send_message L false m = some r) :
    (r.armed = true ↔
      m.isRequest = true ∧ (resolvedTransaction L m).request.type = MsgType.CON) ∧
    r.sent.length = 1 := by
  unfold send_message at h
  by_cases hreq : m.isRequest = true
  · rw [if_pos hreq] at h
    rw [if_neg Bool.false_ne_true] at h
    by_cases htype : (resolvedTransaction L m).request.type = MsgType.CON
    · rw [if_pos htype] at h
      obtain rfl : (⟨[(resolvedTransaction L m).request],
          start_retransmission_arms (resolvedTransaction L m).request⟩ :
          SendMessageResult) = r := by injection h
      refine ⟨?_, rfl⟩
      unfold start_retransmission_arms
      simp [htype, hreq]
    · rw [if_neg htype] at h
      obtain rfl : (⟨[(resolvedTransaction L m).request], false⟩ :
          SendMessageResult) = r := by injection h
      refine ⟨?_, rfl⟩
      simp [htype]
  · rw [if_neg hreq] at h
    rw [if_neg Bool.false_ne_true] at h
    obtain rfl : (⟨[L.messageLayer_sendEmpty (L.observeLayer_sendEmpty m)], false⟩ :
        SendMessageResult) = r := by injection h
    refine ⟨?_, rfl⟩
    simp [hreq]

/-- Identity layer stack used to instantiate the layer-parametric
theorems at a concrete input. -/
def idLayers : Layers :=
  ⟨id, id, id, (fun m => ⟨m⟩), id, id⟩

/-- C8 (witness): a confirmable request sent through the identity layer
stack arms the retransmission task and one datagram goes out. -/
theorem send_message_arms_iff_witness :
    ((⟨[⟨true, MsgType.CON, 7⟩], true⟩ : SendMessageResult).armed = true ↔
      (⟨true, MsgType.CON, 7⟩ : OutMessage).isRequest = true ∧
      (resolvedTransaction idLayers ⟨true, MsgType.CON, 7⟩).request.type = MsgType.CON) ∧
    (⟨[⟨true, MsgType.CON, 7⟩], true⟩ : SendMessageResult).sent.length = 1 :=
  send_message_arms_iff idLayers ⟨true, MsgType.CON, 7⟩ _ rfl

/-! Claim C9. -/

/-- One serialized step preserves the single-live-receiver invariant. -/
theorem atomicStep_inv (s : RecvEngine) (a : AtomicAct) (h : RecvEngineInv s) :
    RecvEngineInv (atomicStep s a) := by
  obtain ⟨hlen, hhandle⟩ := h
  cases a with
  | die t =>
    refine ⟨le_trans (List.length_erase_le t s.liveThreads) hlen, ?_⟩
    intro u hu
    exact hhandle u (List.mem_of_mem_erase hu)
  | send =>
    unfold atomicStep
    by_cases hg : guardHolds s = true
    · rw [if_pos hg]
      have hempty : s.liveThreads = [] := by
        cases hcase : s.handle with
        | none =>
          cases hl : s.liveThreads with
          | nil => rfl
          | cons u us =>
            have hmem : u ∈ s.liveThreads := by rw [hl]; exact List.mem_cons_self u us
            have := hhandle u hmem
            rw [hcase] at this
            exact absurd this (by simp)
        | some t =>
          unfold guardHolds at hg
          rw [hcase] at hg
          simp only [Bool.not_eq_true'] at hg
          cases hl : s.liveThreads with
          | nil => rfl
          | cons u us =>
            have hmem : u ∈ s.liveThreads := by rw [hl]; exact List.mem_cons_self u us
            have h1 := hhandle u hmem
            rw [hcase] at h1
            have h2 : t = u := by injection h1
            rw [← h2] at hmem
            have h3 : s.liveThreads.contains t = true := List.elem_eq_true_of_mem hmem
            rw [h3] at hg
            exact absurd hg (by simp)
      refine ⟨?_, ?_⟩
      · simp [doStart, hempty]
      · intro u hu
        simp only [doStart, hempty, List.mem_cons, List.not_mem_nil, or_false] at hu
        simp [doStart, hu]
    · rw [if_neg hg]
      exact ⟨hlen, hhandle⟩

/-- C9 (counterexample): when two callers of `send_datagram` on the same
engine both evaluate the aliveness guard before either starts its
thread, both guards pass and both threads are started: after the
schedule check1, check2, start1, start2 from a fresh engine, two live
receiver threads coexist. -/
theorem receiver_guard_race_cex :
    (recvRun initRecvEngine [.check1, .check2, .start1, .start2]).liveThreads.length = 2 ∧
    ¬((recvRun initRecvEngine
        [.check1, .check2, .start1, .start2]).liveThreads.length ≤ 1) := by
  exact ⟨rfl, by decide⟩

/-- C9 (amended): `send_datagram` starts a new receiver thread only when
the guard observes no recorded thread or a dead one, and when every
guard-and-start pair executes without interleaving (serialized sends,
with receiver threads allowed to terminate at any point), at most one
live receiver thread exists at all times; the guard does not prevent two
live receiver threads under interleaved concurrent sends. -/
theorem receiver_single_live_serialized (acts : List AtomicAct) :
    (List.foldl atomicStep initRecvEngine acts).liveThreads.length ≤ 1 := by
  have H : ∀ (l : List AtomicAct) (s : RecvEngine), RecvEngineInv s →
      RecvEngineInv (List.foldl atomicStep s l) := by
    intro l
    induction l with
    | nil => intro s hs; exact hs
    | cons a rest ih =>
      intro s hs
      exact ih (atomicStep s a) (atomicStep_inv s a hs)
  have hinit : RecvEngineInv initRecvEngine := by
    constructor
    · simp [initRecvEngine]
    · intro t ht
      simp [initRecvEngine] at ht
  exact (H acts initRecvEngine hinit).1

/-! Claim C10. -/

/-- C10: for every terminating execution of `receive_datagram`, if the
loop exits because the `while` guard sees the stop flag set (as happens
on close), the function reaches and raises `NotImplementedError`; and a
normal return happens only when the exit was caused by a read exception
that the injected policy did not swallow. -/
theorem receive_datagram_exit_modes (pol : Option (Nat → Bool)) (trace : List RecvIter)
    (r : RecvResult) (h : receive_datagram pol trace = some r) :
    (exitViaStop pol trace = true → r.exit = RecvExit.raisesNotImplemented) ∧
    (r.exit = RecvExit.returnsNormally → exitViaUnswallowedRead pol trace = true) := by
  induction trace generalizing r with
  | nil => exact absurd h (by simp [receive_datagram])
  | cons it rest ih =>
    obtain ⟨sf, rd⟩ := it
    cases sf with
    | true =>
      obtain rfl : (⟨RecvExit.raisesNotImplemented, [], 0, false⟩ : RecvResult) = r := by
        injection h
      exact ⟨fun _ => rfl, fun hex => absurd hex (by simp)⟩
    | false =>
      cases rd with
      | timeoutExc => exact ih r h
      | readExc e =>
        cases pol with
        | none =>
          obtain rfl : (⟨RecvExit.returnsNormally, [], 0, false⟩ : RecvResult) = r := by
            injection h
          exact ⟨fun hst => absurd hst Bool.false_ne_true, fun _ => rfl⟩
        | some p =>
          by_cases hpe : p e = true
          · replace h : (if p e = true then receive_datagram (some p) rest
                else some ⟨RecvExit.returnsNormally, [], 0, false⟩) = some r := h
            rw [if_pos hpe] at h
            have hrec := ih r h
            constructor
            · intro hst
              replace hst : (if p e = true then exitViaStop (some p) rest else false) =
                true := hst
              rw [if_pos hpe] at hst
              exact hrec.1 hst
            · intro hex
              show (if p e = true then exitViaUnswallowedRead (some p) rest else true) = true
              rw [if_pos hpe]
              exact hrec.2 hex
          · replace h : (if p e = true then receive_datagram (some p) rest
                else some ⟨RecvExit.returnsNormally, [], 0, false⟩) = some r := h
            rw [if_neg hpe] at h
            obtain rfl : (⟨RecvExit.returnsNormally, [], 0, false⟩ : RecvResult) = r := by
              injection h
            constructor
            · intro hst
              replace hst : (if p e = true then exitViaStop (some p) rest else false) =
                true := hst
              rw [if_neg hpe] at hst
              exact absurd hst Bool.false_ne_true
            · intro _
              show (if p e = true then exitViaUnswallowedRead (some p) rest else true) = true
              rw [if_neg hpe]
      | dataMsg m =>
        replace h : (receive_datagram pol rest).map
            (fun r0 => { r0 with printed := m :: r0.printed }) = some r := h
        obtain ⟨r1, hr1, rfl⟩ := Option.map_eq_some'.mp h
        have hrec := ih r1 hr1
        exact ⟨fun hst => hrec.1 hst, fun hex => hrec.2 hex⟩

/-- C10 (witness): a trace that times out once and then sees the stop
flag set makes `receive_datagram` exit via the stop flag and terminate
by raising `NotImplementedError`. -/
theorem receive_datagram_exit_modes_witness :
    (⟨RecvExit.raisesNotImplemented, [], 0, false⟩ : RecvResult).exit =
      RecvExit.raisesNotImplemented :=
  (receive_datagram_exit_modes none [⟨false, .timeoutExc⟩, ⟨true, .timeoutExc⟩] _ rfl).1 rfl

/-! Claim C6. -/

/-- C6 (counterexample): a read exception with no injected policy
terminates the receiver loop — `receive_datagram` returns — but does not
stop the engine: the function never executes `self.stopped.set()`
(recorded by `stopSetByLoop = false`), so the engine keeps running
without a receiver. -/
theorem receive_datagram_read_error_not_stopping_cex :
    receive_datagram none [⟨false, .readExc 3⟩] =
      some ⟨RecvExit.returnsNormally, [], 0, false⟩ ∧
    (⟨RecvExit.returnsNormally, [], 0, false⟩ : RecvResult).stopSetByLoop = false :=
  ⟨rfl, rfl⟩

/-- C6 (amended): for every iteration of the receiver loop while the
stop flag is unset: a Timeout from the bounded receive causes the loop
to continue; any other receive exception causes the loop to continue if
and only if an injected read-exception policy exists and returns true,
and otherwise terminates the loop by returning from the receiver
function, without setting the engine's stop flag. -/
theorem receive_datagram_iteration (pol : Option (Nat → Bool)) (e : Nat)
    (rest : List RecvIter) :
    receive_datagram pol (⟨false, .timeoutExc⟩ :: rest) = receive_datagram pol rest ∧
    (∀ p, pol = some p → p e = true →
      receive_datagram pol (⟨false, .readExc e⟩ :: rest) = receive_datagram pol rest) ∧
    ((pol = none ∨ ∃ p, pol = some p ∧ p e = false) →
      receive_datagram pol (⟨false, .readExc e⟩ :: rest) =
        some ⟨RecvExit.returnsNormally, [], 0, false⟩) := by
  refine ⟨?_, ?_, ?_⟩
  · rw [receive_datagram, if_neg (by simp)]
  · intro p hp hpe
    subst hp
    rw [receive_datagram, if_neg (by simp)]
    simp only []
    rw [if_pos hpe]
  · rintro (rfl | ⟨p, rfl, hpe⟩)
    · rw [receive_datagram, if_neg (by simp)]
    · rw [receive_datagram, if_neg (by simp)]
      simp only []
      rw [if_neg (by rw [hpe]; exact Bool.false_ne_true)]

/-- C6 (witness): with no policy installed, a single unswallowed read
exception makes the loop terminate with a normal return. -/
theorem receive_datagram_iteration_witness :
    receive_datagram none [⟨false, .readExc 3⟩] =
      some ⟨RecvExit.returnsNormally, [], 0, false⟩ :=
  (receive_datagram_iteration none 3 []).2.2 (Or.inl rfl)

/-! Claim C1. -/

/-- C1 (code bug evidence): on a trace where one datagram is
successfully received and then the engine is stopped, the receiver loop
only prints the raw message: the run records zero invocations of the
application callback — never the exactly-once invocation the claim (and
the docstring of `receive_datagram` itself) describes — and no decode or
transaction lookup exists on any path of the source function. -/
theorem receive_datagram_drops_datagram :
    receive_datagram none [⟨false, .dataMsg 42⟩, ⟨true, .timeoutExc⟩] =
      some ⟨RecvExit.raisesNotImplemented, [42], 0, false⟩ ∧ (0 : Nat) ≠ 1 :=
  ⟨rfl, by decide⟩

end XBeeCoAP
